import Mathlib

/-!
# Birthday countdown page (`script.js`): stage sequencing, persistence and timers

A shallow embedding of `src/script.js`.

* JavaScript numbers are modelled as exact integers (`Int`); `NaN` is `none` in an
  `Option Int`.  All numbers the script handles are millisecond time values and small
  indices, which are integral and far below `2^53`.
* `localStorage` holds the four keys of `STORAGE_KEYS`; a value is a string or absent.
* The page is a record `Page` (module variables, the store, the parts of the DOM the
  script reads or writes, the pending timers and the clock).  A function of the script
  is a function `Page → Page`; a timer callback is a constructor of `Callback`, and the
  event loop `stepLoop` runs the pending timer that is due first.
-/

namespace Bday

/-! ## JavaScript primitives -/

/-- The method `Number.prototype.toString()` on an integral number. -/
def numberToString : Int → String
  | Int.ofNat m => Nat.repr m
  | Int.negSucc m => "-" ++ Nat.repr (m + 1)

/-- White space skipped by `parseInt` (ECMAScript `StrWhiteSpaceChar`). -/
def isStrWhiteSpace (c : Char) : Bool :=
  let n := c.toNat
  n = 0x09 || n = 0x0A || n = 0x0B || n = 0x0C || n = 0x0D || n = 0x20 || n = 0xA0 ||
    n = 0x1680 || (0x2000 ≤ n && n ≤ 0x200A) || n = 0x2028 || n = 0x2029 || n = 0x202F ||
    n = 0x205F || n = 0x3000 || n = 0xFEFF

/-- Value of a character read as a digit (radix up to 16). -/
def digitValue (c : Char) : Option Nat :=
  let n := c.toNat
  if 48 ≤ n ∧ n ≤ 57 then some (n - 48)
  else if 97 ≤ n ∧ n ≤ 102 then some (n - 87)
  else if 65 ≤ n ∧ n ≤ 70 then some (n - 55)
  else none

/-- Reads the longest prefix of digits of the radix; `acc` is `none` until a digit is read. -/
def parseDigits (radix : Nat) : List Char → Option Nat → Option Nat
  | [], acc => acc
  | c :: cs, acc =>
    match digitValue c with
    | some d => if d < radix then parseDigits radix cs (some (acc.getD 0 * radix + d)) else acc
    | none => acc

/-- Sign step of `parseInt`: an optional leading `-` or `+`. -/
def stripSign : List Char → Bool × List Char
  | [] => (false, [])
  | c :: r => if c = '-' then (true, r) else if c = '+' then (false, r) else (false, c :: r)

/-- Radix step of `parseInt` without a radix argument: `0x` or `0X` selects 16, else 10. -/
def stripRadix : List Char → Nat × List Char
  | c0 :: c1 :: r => if c0 = '0' ∧ (c1 = 'x' ∨ c1 = 'X') then (16, r) else (10, c0 :: c1 :: r)
  | cs => (10, cs)

/-- The builtin `parseInt(s)` with no radix argument; `none` is `NaN`. -/
def parseInt (s : String) : Option Int :=
  let signed := stripSign (s.data.dropWhile isStrWhiteSpace)
  let based := stripRadix signed.2
  match parseDigits based.1 based.2 none with
  | none => none
  | some n => some (if signed.1 then -(n : Int) else (n : Int))

/-- The expression `x || 0` on a number: `NaN` and `0` are falsy. -/
def orZero : Option Int → Int
  | none => 0
  | some n => n

/-- The conversion `String(x)` of the argument of `parseInt`: `null` becomes "null". -/
def nullToString : Option String → String
  | none => "null"
  | some s => s

/-- The call `s.padStart(2, '0')`. -/
def padStart2 (s : String) : String :=
  if s.length < 2 then String.mk (List.replicate (2 - s.length) '0') ++ s else s

/-- The text `Math.floor(x).toString()` of a number that may be `NaN`. -/
def numberOrNaNToString : Option Int → String
  | none => "NaN"
  | some n => numberToString n

/-! ## Countdown arithmetic (`updateCountdown`, lines 145-148) -/

/-- Milliseconds per day, `1000 * 60 * 60 * 24`. -/
def MS_DAY : Int := 1000 * 60 * 60 * 24
/-- Milliseconds per hour, `1000 * 60 * 60`. -/
def MS_HOUR : Int := 1000 * 60 * 60
/-- Milliseconds per minute, `1000 * 60`. -/
def MS_MINUTE : Int := 1000 * 60

/-- The four components computed by `updateCountdown`. -/
structure Parts where
  days : Int
  hours : Int
  minutes : Int
  seconds : Int
  deriving DecidableEq, Repr

/-- Lines 145-148: `Math.floor` is floor division and `%` the truncating remainder of
JavaScript. -/
def countdownParts (timeLeft : Int) : Parts :=
  { days := Int.fdiv timeLeft MS_DAY
    hours := Int.fdiv (Int.tmod timeLeft MS_DAY) MS_HOUR
    minutes := Int.fdiv (Int.tmod timeLeft MS_HOUR) MS_MINUTE
    seconds := Int.fdiv (Int.tmod timeLeft MS_MINUTE) 1000 }

/-- Strict lexicographic order on `(days, hours, minutes, seconds)`. -/
def Parts.lexLt (a b : Parts) : Prop :=
  a.days < b.days ∨ (a.days = b.days ∧ (a.hours < b.hours ∨ (a.hours = b.hours ∧
    (a.minutes < b.minutes ∨ (a.minutes = b.minutes ∧ a.seconds < b.seconds)))))

instance (a b : Parts) : Decidable (Parts.lexLt a b) := by
  unfold Parts.lexLt; infer_instance

/-! ## The store (`STORAGE_KEYS`, `STAGES`, `localStorage`) -/

/-- The keys of `STORAGE_KEYS` (lines 9-14). -/
inductive StorageKey
  | BIRTHDAY_DATE
  | COUNTDOWN_ACTIVE
  | CURRENT_STAGE
  | PHOTO_INDEX
  deriving DecidableEq, Repr

/-- The list `Object.values(STORAGE_KEYS)`. -/
def StorageKey.all : List StorageKey :=
  [StorageKey.BIRTHDAY_DATE, StorageKey.COUNTDOWN_ACTIVE, StorageKey.CURRENT_STAGE,
    StorageKey.PHOTO_INDEX]

/-- Stage `STAGES.INITIAL` (line 18). -/
def STAGES.INITIAL : String := "initial"
/-- Stage `STAGES.COUNTDOWN` (line 19). -/
def STAGES.COUNTDOWN : String := "countdown"
/-- Stage `STAGES.BIRTHDAY` (line 20). -/
def STAGES.BIRTHDAY : String := "birthday"
/-- Stage `STAGES.PHOTOS` (line 21). -/
def STAGES.PHOTOS : String := "photos"
/-- Stage `STAGES.FINAL` (line 22). -/
def STAGES.FINAL : String := "final"

/-- The part of `localStorage` under the four keys of the script: each value is a string
or absent (`null` on `getItem`). -/
structure LocalStorage where
  date : Option String
  active : Option String
  stage : Option String
  photoIndex : Option String
  deriving DecidableEq, Repr

/-- The store of a first-ever visit: no key present. -/
def LocalStorage.empty : LocalStorage :=
  { date := none, active := none, stage := none, photoIndex := none }

/-- The call `localStorage.getItem(key)`. -/
def LocalStorage.getItem (s : LocalStorage) : StorageKey → Option String
  | StorageKey.BIRTHDAY_DATE => s.date
  | StorageKey.COUNTDOWN_ACTIVE => s.active
  | StorageKey.CURRENT_STAGE => s.stage
  | StorageKey.PHOTO_INDEX => s.photoIndex

/-- The call `localStorage.setItem(key, value)`. -/
def LocalStorage.setItem (s : LocalStorage) (k : StorageKey) (v : String) : LocalStorage :=
  match k with
  | StorageKey.BIRTHDAY_DATE => { s with date := some v }
  | StorageKey.COUNTDOWN_ACTIVE => { s with active := some v }
  | StorageKey.CURRENT_STAGE => { s with stage := some v }
  | StorageKey.PHOTO_INDEX => { s with photoIndex := some v }

/-- The call `localStorage.removeItem(key)`. -/
def LocalStorage.removeItem (s : LocalStorage) (k : StorageKey) : LocalStorage :=
  match k with
  | StorageKey.BIRTHDAY_DATE => { s with date := none }
  | StorageKey.COUNTDOWN_ACTIVE => { s with active := none }
  | StorageKey.CURRENT_STAGE => { s with stage := none }
  | StorageKey.PHOTO_INDEX => { s with photoIndex := none }

/-! ## The page -/

/-- The inline `style.display` of an element: not set by the script yet, 'none' or
'block'. -/
inductive Display
  | unset
  | none
  | block
  deriving DecidableEq, Repr

/-- The sections that `resetCountdown` walks over (line 273) and the date input view. -/
inductive SectionId
  | dateInput
  | countdown
  | birthdayMessage
  | photoGallery
  | finalMessage
  deriving DecidableEq, Repr

/-- A `.photo-item` element: the two style properties that `showNextPhoto` writes. -/
structure PhotoItem where
  display : Display
  animation : String
  deriving DecidableEq, Repr

/-- The bodies of the timer callbacks of the script. -/
inductive Callback
  /-- Line 127: `() => updateCountdown(birthdayDate)`. -/
  | countdownTick (birthdayDate : Option Int)
  /-- Line 77: `() => showPhotos()`. -/
  | restorePhotos
  /-- Line 84: `() => { showPhotos(); setTimeout(..., 2000) }`. -/
  | restoreFinal
  /-- Line 86: shows the final message. -/
  | showFinalMessage
  /-- Line 188: `showNextPhoto`. -/
  | showNextPhoto
  /-- Line 190: persists `STAGES.FINAL` and shows the final message. -/
  | finishPhotos
  /-- Line 285: the delayed part of `resetCountdown`. -/
  | resetSections
  deriving DecidableEq, Repr

/-- A pending timer: `period` is set for `setInterval`. -/
structure Timer where
  id : Nat
  due : Int
  period : Option Int
  callback : Callback
  deriving DecidableEq, Repr

/-- The state of the loaded page. -/
structure Page where
  /-- Line 4: `let countdownInterval`. -/
  countdownInterval : Option Nat
  /-- Line 5: `let photoIndex = 0`. -/
  photoIndex : Int
  /-- Line 6: `let heartsInterval`. -/
  heartsInterval : Option Nat
  localStorage : LocalStorage
  /-- The `value` of the `#birthdayDate` input. -/
  birthdayDateValue : String
  dateInput : Display
  countdown : Display
  birthdayMessage : Display
  photoGallery : Display
  finalMessage : Display
  /-- Sections carrying the class `fade-out`. -/
  fadeOut : List SectionId
  daysText : String
  hoursText : String
  minutesText : String
  secondsText : String
  /-- The `.photo-item` elements, in document order. -/
  photos : List PhotoItem
  /-- Log: the slots that `showNextPhoto` revealed, in order. -/
  revealed : List Nat
  /-- Log: the messages passed to `alert`. -/
  alerts : List String
  /-- The clock, `new Date().getTime()`. -/
  now : Int
  nextTimerId : Nat
  timers : List Timer
  deriving DecidableEq, Repr

/-- The `Date` functions the script relies on. -/
structure Env where
  /-- The value of `new Date(s).getTime()`; `none` is `NaN` (invalid date). -/
  parseDate : String → Option Int
  /-- The value of `tomorrow.toISOString().split('T')[0]` at a given time. -/
  defaultDate : Int → String

/-- The page right after it is loaded over a store, before any script has run: timer
ids start at 1 (a handle is truthy). -/
def pageLoad (storage : LocalStorage) (photoCount : Nat) (now : Int) : Page :=
  { countdownInterval := none, photoIndex := 0, heartsInterval := none,
    localStorage := storage, birthdayDateValue := "",
    dateInput := Display.unset, countdown := Display.unset, birthdayMessage := Display.unset,
    photoGallery := Display.unset, finalMessage := Display.unset, fadeOut := [],
    daysText := "", hoursText := "", minutesText := "", secondsText := "",
    photos := List.replicate photoCount { display := Display.unset, animation := "" },
    revealed := [], alerts := [], now := now, nextTimerId := 1, timers := [] }

/-- Reads `getElementById(id).style.display`. -/
def Page.display (p : Page) : SectionId → Display
  | SectionId.dateInput => p.dateInput
  | SectionId.countdown => p.countdown
  | SectionId.birthdayMessage => p.birthdayMessage
  | SectionId.photoGallery => p.photoGallery
  | SectionId.finalMessage => p.finalMessage

/-- Writes `getElementById(id).style.display = d`. -/
def Page.setDisplay (p : Page) (s : SectionId) (d : Display) : Page :=
  match s with
  | SectionId.dateInput => { p with dateInput := d }
  | SectionId.countdown => { p with countdown := d }
  | SectionId.birthdayMessage => { p with birthdayMessage := d }
  | SectionId.photoGallery => { p with photoGallery := d }
  | SectionId.finalMessage => { p with finalMessage := d }

/-- The call `setTimeout(cb, delay)`. -/
def setTimeout (cb : Callback) (delay : Int) (p : Page) : Page :=
  { p with
    timers := p.timers ++
      [{ id := p.nextTimerId, due := p.now + delay, period := none, callback := cb }]
    nextTimerId := p.nextTimerId + 1 }

/-- The call `clearInterval(handle)`; an `undefined` handle clears nothing. -/
def clearInterval (handle : Option Nat) (p : Page) : Page :=
  match handle with
  | none => p
  | some h => { p with timers := p.timers.filter (fun t => decide (t.id ≠ h)) }

/-- Lines 198-217, `createHearts`: the interval only adds and removes decorative nodes
under `#hearts`, which no other code reads; the handle is kept and an id is used up, the
ticks are not queued. -/
def createHearts (p : Page) : Page :=
  { p with heartsInterval := some p.nextTimerId, nextTimerId := p.nextTimerId + 1 }

/-- Lines 157-163. -/
def showBirthdayMessage (p : Page) : Page :=
  createHearts
    { p with
      localStorage := p.localStorage.setItem StorageKey.CURRENT_STAGE STAGES.BIRTHDAY
      countdown := Display.none
      birthdayMessage := Display.block }

/-- Lines 178-195.  With a negative `photoIndex`, `photos[photoIndex]` is `undefined` and
line 181 throws; the exception ends the callback with nothing written. -/
def showNextPhoto (p : Page) : Page :=
  if p.photoIndex < p.photos.length then
    if p.photoIndex < 0 then p
    else
      setTimeout Callback.showNextPhoto 1500
        { p with
          photos := p.photos.set p.photoIndex.toNat
            { display := Display.block, animation := "fadeInUp 0.8s ease-out" }
          revealed := p.revealed ++ [p.photoIndex.toNat]
          localStorage :=
            p.localStorage.setItem StorageKey.PHOTO_INDEX (numberToString p.photoIndex)
          photoIndex := p.photoIndex + 1 }
  else
    setTimeout Callback.finishPhotos 2000 p

/-- Lines 166-175. -/
def showPhotos (p : Page) : Page :=
  showNextPhoto
    { p with
      localStorage := p.localStorage.setItem StorageKey.CURRENT_STAGE STAGES.PHOTOS
      birthdayMessage := Display.none
      photoGallery := Display.block
      photoIndex :=
        orZero (parseInt (nullToString (p.localStorage.getItem StorageKey.PHOTO_INDEX))) }

/-- Lines 135-154.  With an invalid date `timeLeft` is `NaN`: the test `timeLeft < 0` is
false and every field shows "NaN". -/
def updateCountdown (birthdayDate : Option Int) (p : Page) : Page :=
  match birthdayDate with
  | none =>
    { p with
      daysText := padStart2 (numberOrNaNToString none)
      hoursText := padStart2 (numberOrNaNToString none)
      minutesText := padStart2 (numberOrNaNToString none)
      secondsText := padStart2 (numberOrNaNToString none) }
  | some target =>
    let timeLeft := target - p.now
    if timeLeft < 0 then
      showBirthdayMessage (clearInterval p.countdownInterval p)
    else
      { p with
        daysText := padStart2 (numberOrNaNToString (some (countdownParts timeLeft).days))
        hoursText := padStart2 (numberOrNaNToString (some (countdownParts timeLeft).hours))
        minutesText := padStart2 (numberOrNaNToString (some (countdownParts timeLeft).minutes))
        secondsText :=
          padStart2 (numberOrNaNToString (some (countdownParts timeLeft).seconds)) }

/-- Lines 126-132. -/
def startCountdownTimer (birthdayDate : Option Int) (p : Page) : Page :=
  updateCountdown birthdayDate
    { p with
      countdownInterval := some p.nextTimerId
      timers := p.timers ++
        [{ id := p.nextTimerId, due := p.now + 1000, period := some 1000,
           callback := Callback.countdownTick birthdayDate }]
      nextTimerId := p.nextTimerId + 1 }

/-- The test `birthdayDate <= now`; false when the date is `NaN`. -/
def hasArrived (birthdayDate : Option Int) (now : Int) : Bool :=
  match birthdayDate with
  | none => false
  | some target => decide (target ≤ now)

/-- Lines 53-96. -/
def restoreCountdownState (env : Env) (dateString : String) (stage : String) (p : Page) :
    Page :=
  let birthdayDate := env.parseDate dateString
  if hasArrived birthdayDate p.now then
    showBirthdayMessage p
  else if stage = STAGES.COUNTDOWN then
    startCountdownTimer birthdayDate
      { p with dateInput := Display.none, countdown := Display.block }
  else if stage = STAGES.BIRTHDAY then
    showBirthdayMessage p
  else if stage = STAGES.PHOTOS then
    setTimeout Callback.restorePhotos 1000 (showBirthdayMessage p)
  else if stage = STAGES.FINAL then
    setTimeout Callback.restoreFinal 1000 (showBirthdayMessage p)
  else
    p

/-- The expression `a || b` on strings: `null` and the empty string are falsy. -/
def strOr (a : Option String) (b : String) : String :=
  match a with
  | none => b
  | some s => if s = "" then b else s

/-- Truthiness of a string that may be `null`. -/
def strTruthy (a : Option String) : Bool :=
  match a with
  | none => false
  | some s => decide (s ≠ "")

/-- Lines 33-50. -/
def initializeApp (env : Env) (p : Page) : Page :=
  let storedDate := p.localStorage.getItem StorageKey.BIRTHDAY_DATE
  let p1 := { p with birthdayDateValue := strOr storedDate (env.defaultDate p.now) }
  let isActive := decide (p.localStorage.getItem StorageKey.COUNTDOWN_ACTIVE = some "true")
  let currentStage := strOr (p.localStorage.getItem StorageKey.CURRENT_STAGE) STAGES.INITIAL
  if isActive && strTruthy storedDate then
    restoreCountdownState env (nullToString storedDate) currentStage p1
  else
    p1

/-- Lines 99-123. -/
def startCountdown (env : Env) (p : Page) : Page :=
  let dateInput := p.birthdayDateValue
  if dateInput = "" then
    { p with alerts := p.alerts ++ ["Please select a birthday date!"] }
  else
    let birthdayDate := env.parseDate dateInput
    let p1 :=
      { p with
        localStorage :=
          ((p.localStorage.setItem StorageKey.BIRTHDAY_DATE dateInput).setItem
            StorageKey.COUNTDOWN_ACTIVE "true").setItem StorageKey.CURRENT_STAGE
              STAGES.COUNTDOWN }
    if hasArrived birthdayDate p.now then
      showBirthdayMessage p1
    else
      startCountdownTimer birthdayDate
        { p1 with dateInput := Display.none, countdown := Display.block }

/-- The sections of line 273. -/
def resetSectionIds : List SectionId :=
  [SectionId.countdown, SectionId.birthdayMessage, SectionId.photoGallery,
    SectionId.finalMessage]

/-- Truthiness of a timer handle: `undefined` and `0` are falsy. -/
def handleTruthy : Option Nat → Bool
  | none => false
  | some h => decide (h ≠ 0)

/-- Lines 248-306; `confirmReset` is the answer to the `confirm` dialog.  Emptying the
decorative `#hearts` container (line 282) changes nothing that is modelled. -/
def resetCountdown (confirmReset : Bool) (p : Page) : Page :=
  if !confirmReset then p
  else
    let p0 := if handleTruthy p.countdownInterval then clearInterval p.countdownInterval p else p
    let p1 := if handleTruthy p0.heartsInterval then clearInterval p0.heartsInterval p0 else p0
    let p2 :=
      { p1 with
        localStorage := StorageKey.all.foldl (fun s k => s.removeItem k) p1.localStorage
        photoIndex := 0 }
    let p3 :=
      { p2 with
        fadeOut := p2.fadeOut ++
          resetSectionIds.filter
            (fun s => decide (p2.display s ≠ Display.none ∧ s ∉ p2.fadeOut)) }
    setTimeout Callback.resetSections 500 p3

/-- Lines 285-306: the delayed part of `resetCountdown`. -/
def resetSections (env : Env) (p : Page) : Page :=
  let p1 := resetSectionIds.foldl (fun q s => q.setDisplay s Display.none) p
  { p1 with
    fadeOut := p1.fadeOut.filter (fun s => decide (s ∉ resetSectionIds))
    photos := p1.photos.map (fun ph => { ph with display := Display.none })
    dateInput := Display.block
    birthdayDateValue := env.defaultDate p1.now }

/-- Lines 191-192. -/
def finishPhotos (p : Page) : Page :=
  { p with
    localStorage := p.localStorage.setItem StorageKey.CURRENT_STAGE STAGES.FINAL
    finalMessage := Display.block }

/-- Runs the body of a timer callback. -/
def runCallback (env : Env) (cb : Callback) (p : Page) : Page :=
  match cb with
  | Callback.countdownTick birthdayDate => updateCountdown birthdayDate p
  | Callback.restorePhotos => showPhotos p
  | Callback.restoreFinal => setTimeout Callback.showFinalMessage 2000 (showPhotos p)
  | Callback.showFinalMessage => { p with finalMessage := Display.block }
  | Callback.showNextPhoto => showNextPhoto p
  | Callback.finishPhotos => finishPhotos p
  | Callback.resetSections => resetSections env p

/-! ## The event loop -/

/-- The pending timer that runs next: the least due time, the older timer on a tie. -/
def earliest : List Timer → Option Timer
  | [] => none
  | t :: ts =>
    match earliest ts with
    | none => some t
    | some u => if u.due < t.due then some u else some t

/-- The queue after timer `t` has been taken: a timeout is removed, an interval is due
again one period later. -/
def afterFiring (t : Timer) (timers : List Timer) : List Timer :=
  match t.period with
  | none => timers.filter (fun u => decide (u.id ≠ t.id))
  | some d => timers.map (fun u => if u.id = t.id then { u with due := t.due + d } else u)

/-- One turn of the event loop: the clock moves to the due time of the next timer and
its callback runs; `none` when no timer is pending. -/
def stepLoop (env : Env) (p : Page) : Option Page :=
  match earliest p.timers with
  | none => none
  | some t =>
    some (runCallback env t.callback
      { p with now := max p.now t.due, timers := afterFiring t p.timers })

/-- Runs up to `fuel` turns of the event loop, stopping when no timer is pending. -/
def runLoop (env : Env) : Nat → Page → Page
  | 0, p => p
  | fuel + 1, p =>
    match stepLoop env p with
    | none => p
    | some q => runLoop env fuel q

/-! ## The reset control (`setupResetButton`, lines 220-245) -/

/-- The closure state of the click listener: `clickCount`, and the due time of the
timeout of line 240 while it is pending (`none` once it has run or was cleared). -/
structure ResetButton where
  clickCount : Nat
  clickTimer : Option Int
  deriving DecidableEq, Repr

/-- Line 222-223: the state when the listener is installed. -/
def ResetButton.init : ResetButton := { clickCount := 0, clickTimer := none }

/-- What one activation did: the value `clickCount` reached by `clickCount++`, whether
`resetCountdown` was called, and the state left behind. -/
structure Activation where
  reached : Nat
  prompted : Bool
  after : ResetButton
  deriving DecidableEq, Repr

/-- Time passes up to `t`: the timeout of line 240 runs when it is due before `t`; when it
is due exactly at `t`, `timerFirst` says whether it runs before the click. -/
def ResetButton.elapse (timerFirst : Bool) (b : ResetButton) (t : Int) : ResetButton :=
  match b.clickTimer with
  | none => b
  | some due =>
    if due < t ∨ (timerFirst = true ∧ due = t) then { clickCount := 0, clickTimer := none }
    else b

/-- Lines 225-244: the click listener, run at time `t`. -/
def ResetButton.click (b : ResetButton) (t : Int) : Activation :=
  let clickCount := b.clickCount + 1
  if clickCount = 3 then
    { reached := clickCount, prompted := true, after := { clickCount := 0, clickTimer := none } }
  else
    { reached := clickCount, prompted := false,
      after := { clickCount := clickCount, clickTimer := some (t + 1000) } }

/-- An activation of the control at time `t`. -/
def ResetButton.activate (timerFirst : Bool) (b : ResetButton) (t : Int) : Activation :=
  (b.elapse timerFirst t).click t

/-- The activations at the given times, in order. -/
def ResetButton.activations (timerFirst : Bool) : ResetButton → List Int → List Activation
  | _, [] => []
  | b, t :: ts =>
    (b.activate timerFirst t) ::
      ResetButton.activations timerFirst (b.activate timerFirst t).after ts

/-- The state after the activations at the given times. -/
def ResetButton.afterAll (timerFirst : Bool) : ResetButton → List Int → ResetButton
  | b, [] => b
  | b, t :: ts => ResetButton.afterAll timerFirst (b.activate timerFirst t).after ts

/-! ## The theme clock (`updateTheme`, lines 347-377) -/

/-- The parts of `document.body` that `updateTheme` writes. -/
structure Body where
  classList : List String
  /-- The text of `#themeIndicator`, `none` while the element does not exist. -/
  themeIndicator : Option String
  deriving DecidableEq, Repr

/-- The call `classList.remove(c)`. -/
def classRemove (c : String) (classes : List String) : List String :=
  classes.filter (fun x => decide (x ≠ c))

/-- The call `classList.add(c)`. -/
def classAdd (c : String) (classes : List String) : List String :=
  if c ∈ classes then classes else classes ++ [c]

/-- Lines 347-365; `hour` is `now.getHours()`. -/
def updateTheme (hour : Nat) (body : Body) : Body :=
  if 6 ≤ hour ∧ hour < 18 then
    { classList := classAdd "day-theme" (classRemove "night-theme" body.classList)
      themeIndicator := some "🌻" }
  else
    { classList := classAdd "night-theme" (classRemove "day-theme" body.classList)
      themeIndicator := some "🌙" }

/-! ## Example pages -/

/-- An environment in which the date string "2025-06-01" is the only valid one (midnight
UTC of that day). -/
def exampleEnv : Env :=
  { parseDate := fun s => if s = "2025-06-01" then some 1748736000000 else none
    defaultDate := fun _ => "2025-06-02" }

/-- A first visit one day after the date typed into the input: 2025-06-02, three photos. -/
def pastDatePage : Page :=
  { pageLoad LocalStorage.empty 3 1748822400000 with birthdayDateValue := "2025-06-01" }

/-- The store of an interrupted reveal: stage PHOTOS, stored photo index 2. -/
def photosStore : LocalStorage :=
  { date := some "2025-06-01", active := some "true", stage := some "photos",
    photoIndex := some "2" }

/-- A page with three photos loaded over `photosStore` on 2025-06-02. -/
def photosPage : Page := pageLoad photosStore 3 1748822400000

/-- The store after a completed reveal of three photos: stage FINAL, stored index 2. -/
def finalStore : LocalStorage :=
  { date := some "2025-06-01", active := some "true", stage := some "final",
    photoIndex := some "2" }

/-- A page with three photos loaded over `finalStore` one day after the target date. -/
def finalPagePast : Page := pageLoad finalStore 3 1748822400000

/-- A page with three photos loaded over `finalStore` one day before the target date. -/
def finalPageFuture : Page := pageLoad finalStore 3 1748649600000

/-- A first visit with three photos. -/
def freshPage : Page := pageLoad LocalStorage.empty 3 1748822400000

/-! ## Lemmas on the countdown arithmetic -/

theorem countdownParts_eq (t : Int) (h : 0 ≤ t) :
    countdownParts t =
      { days := t / 86400000
        hours := t % 86400000 / 3600000
        minutes := t % 3600000 / 60000
        seconds := t % 60000 / 1000 } := by
  have e1 : t.tmod 86400000 = t % 86400000 := Int.tmod_eq_emod h (by norm_num)
  have e2 : t.tmod 3600000 = t % 3600000 := Int.tmod_eq_emod h (by norm_num)
  have e3 : t.tmod 60000 = t % 60000 := Int.tmod_eq_emod h (by norm_num)
  simp only [countdownParts, MS_DAY, MS_HOUR, MS_MINUTE]
  norm_num
  rw [e1, e2, e3]
  rw [Int.fdiv_eq_ediv _ (by norm_num), Int.fdiv_eq_ediv _ (by norm_num),
    Int.fdiv_eq_ediv _ (by norm_num), Int.fdiv_eq_ediv _ (by norm_num)]
  exact ⟨rfl, rfl, rfl, rfl⟩

/-- C1. For every remaining time `timeLeft >= 0` in milliseconds, `updateCountdown` shows
the zero-padded components `countdownParts timeLeft`, which are `floor(timeLeft / 86400000)`,
`floor((timeLeft mod 86400000) / 3600000)`, `floor((timeLeft mod 3600000) / 60000)` and
`floor((timeLeft mod 60000) / 1000)`; hours lie in `0..23`, minutes and seconds in `0..59`,
and `days*86400 + hours*3600 + minutes*60 + seconds = floor(timeLeft / 1000)`. -/
theorem countdownParts_spec (timeLeft : Int) (h : 0 ≤ timeLeft) :
    (∀ (p : Page) (target : Int), target - p.now = timeLeft →
      (updateCountdown (some target) p).daysText =
          padStart2 (numberToString (countdownParts timeLeft).days) ∧
        (updateCountdown (some target) p).hoursText =
          padStart2 (numberToString (countdownParts timeLeft).hours) ∧
        (updateCountdown (some target) p).minutesText =
          padStart2 (numberToString (countdownParts timeLeft).minutes) ∧
        (updateCountdown (some target) p).secondsText =
          padStart2 (numberToString (countdownParts timeLeft).seconds)) ∧
    (countdownParts timeLeft).days = timeLeft / 86400000 ∧
    (countdownParts timeLeft).hours = timeLeft % 86400000 / 3600000 ∧
    (countdownParts timeLeft).minutes = timeLeft % 3600000 / 60000 ∧
    (countdownParts timeLeft).seconds = timeLeft % 60000 / 1000 ∧
    0 ≤ (countdownParts timeLeft).days ∧
    0 ≤ (countdownParts timeLeft).hours ∧ (countdownParts timeLeft).hours < 24 ∧
    0 ≤ (countdownParts timeLeft).minutes ∧ (countdownParts timeLeft).minutes < 60 ∧
    0 ≤ (countdownParts timeLeft).seconds ∧ (countdownParts timeLeft).seconds < 60 ∧
    (countdownParts timeLeft).days * 86400 + (countdownParts timeLeft).hours * 3600 +
      (countdownParts timeLeft).minutes * 60 + (countdownParts timeLeft).seconds
        = timeLeft / 1000 := by
  refine ⟨?_, ?_⟩
  · intro p target ht
    subst ht
    have hlt : ¬ (target - p.now < 0) := by omega
    simp [updateCountdown, hlt, numberOrNaNToString]
  · rw [countdownParts_eq timeLeft h]
    simp only
    refine ⟨?_, ?_, ?_, ?_, ?_, ?_, ?_, ?_, ?_, ?_, ?_, ?_⟩ <;> first | trivial | omega

theorem countdownParts_spec_witness :
    (0 : Int) ≤ 93784567 ∧ (countdownParts 93784567).days = 1 ∧
      (countdownParts 93784567).hours = 2 ∧ (countdownParts 93784567).minutes = 3 ∧
      (countdownParts 93784567).seconds = 4 := by
  have h := (countdownParts_spec 93784567 (by decide)).2
  refine ⟨by decide, ?_, ?_, ?_, ?_⟩
  · rw [h.1]; decide
  · rw [h.2.1]; decide
  · rw [h.2.2.1]; decide
  · rw [h.2.2.2.1]; decide

/-- C3. For remaining times `t1 > t2 >= 0` at least one tick (1000 ms) apart, the tuple
`(days, hours, minutes, seconds)` computed for `t2` is strictly smaller, in lexicographic
order, than the tuple computed for `t1`. -/
theorem countdownParts_strictly_decreasing (t1 t2 : Int) (h2 : 0 ≤ t2) (h12 : t2 < t1)
    (htick : 1000 ≤ t1 - t2) :
    Parts.lexLt (countdownParts t2) (countdownParts t1) := by
  have h1 : 0 ≤ t1 := le_of_lt (lt_of_le_of_lt h2 h12)
  rw [countdownParts_eq t2 h2, countdownParts_eq t1 h1]
  simp only [Parts.lexLt]
  omega

theorem countdownParts_strictly_decreasing_witness :
    (0 : Int) ≤ 59999 ∧ (59999 : Int) < 60999 ∧ (1000 : Int) ≤ 60999 - 59999 ∧
      Parts.lexLt (countdownParts 59999) (countdownParts 60999) :=
  ⟨by decide, by decide, by decide,
    countdownParts_strictly_decreasing 60999 59999 (by decide) (by decide) (by decide)⟩

/-! ## `parseInt` reads back what `toString` wrote -/

theorem digitChar_facts (d : Nat) (h : d < 10) :
    digitValue (Nat.digitChar d) = some d ∧ isStrWhiteSpace (Nat.digitChar d) = false ∧
      Nat.digitChar d ≠ '-' ∧ Nat.digitChar d ≠ '+' ∧ Nat.digitChar d ≠ 'x' ∧
      Nat.digitChar d ≠ 'X' := by
  interval_cases d <;> decide

theorem toDigitsCore_decimal (fuel : Nat) :
    ∀ (n : Nat) (ds : List Char), (∀ c ∈ ds, ∃ d, d < 10 ∧ c = Nat.digitChar d) →
      ∀ c ∈ Nat.toDigitsCore 10 fuel n ds, ∃ d, d < 10 ∧ c = Nat.digitChar d := by
  induction fuel with
  | zero => intro n ds hds c hc; exact hds c (by simpa [Nat.toDigitsCore] using hc)
  | succ fuel ih =>
    intro n ds hds c hc
    have hcons : ∀ c ∈ Nat.digitChar (n % 10) :: ds, ∃ d, d < 10 ∧ c = Nat.digitChar d := by
      intro c hc
      rcases List.mem_cons.mp hc with h | h
      · exact ⟨n % 10, Nat.mod_lt _ (by decide), h⟩
      · exact hds c h
    simp only [Nat.toDigitsCore] at hc
    split_ifs at hc
    · exact hcons c hc
    · exact ih _ _ hcons c hc

theorem parseDigits_toDigitsCore (fuel : Nat) :
    ∀ (n : Nat) (ds : List Char), n < fuel →
      parseDigits 10 (Nat.toDigitsCore 10 fuel n ds) none = parseDigits 10 ds (some n) := by
  induction fuel with
  | zero => intro n ds h; omega
  | succ fuel ih =>
    intro n ds h
    have hd := (digitChar_facts (n % 10) (Nat.mod_lt _ (by decide))).1
    have hlt : n % 10 < 10 := Nat.mod_lt _ (by decide)
    simp only [Nat.toDigitsCore]
    split_ifs with h0
    · have hn : n % 10 = n := by omega
      rw [hn] at hd hlt
      simp [parseDigits, hd, hlt, hn]
    · rw [ih (n / 10) _ (by omega)]
      have hn : n / 10 * 10 + n % 10 = n := by omega
      simp [parseDigits, hd, hlt, hn]

theorem parseInt_repr (n : Nat) : parseInt (Nat.repr n) = some (n : Int) := by
  have hparse : parseDigits 10 (Nat.toDigits 10 n) none = some n := by
    unfold Nat.toDigits
    rw [parseDigits_toDigitsCore (n + 1) n [] (by omega)]
    rfl
  have hdec : ∀ c ∈ Nat.toDigits 10 n, ∃ d, d < 10 ∧ c = Nat.digitChar d := by
    unfold Nat.toDigits
    exact toDigitsCore_decimal (n + 1) n [] (by simp)
  have hdata : (Nat.repr n).data = Nat.toDigits 10 n := rfl
  unfold parseInt
  rw [hdata]
  cases hL : Nat.toDigits 10 n with
  | nil => rw [hL] at hparse; simp [parseDigits] at hparse
  | cons c r =>
    rw [hL] at hparse hdec
    obtain ⟨d, hd, hc⟩ := hdec c (by simp)
    obtain ⟨_, hws, hminus, hplus, _, _⟩ := digitChar_facts d hd
    rw [← hc] at hws hminus hplus
    have hdrop : List.dropWhile isStrWhiteSpace (c :: r) = c :: r := by
      simp [List.dropWhile, hws]
    have hsign : stripSign (c :: r) = (false, c :: r) := by
      simp [stripSign, hminus, hplus]
    have hradix : stripRadix (c :: r) = (10, c :: r) := by
      cases r with
      | nil => rfl
      | cons c1 r1 =>
        obtain ⟨d1, hd1, hc1⟩ := hdec c1 (by simp)
        obtain ⟨_, _, _, _, hx, hX⟩ := digitChar_facts d1 hd1
        rw [← hc1] at hx hX
        simp [stripRadix, hx, hX]
    simp only [hdrop, hsign, hradix, hparse]
    simp

theorem parseInt_numberToString (n : Nat) : parseInt (numberToString (n : Int)) = some (n : Int) :=
  parseInt_repr n

/-! ## The photo reveal chain -/

theorem showNextPhoto_reveal (p : Page) (i : Nat) (hi : p.photoIndex = (i : Int))
    (hlt : i < p.photos.length) :
    showNextPhoto p =
      { p with
        photos := p.photos.set i { display := Display.block, animation := "fadeInUp 0.8s ease-out" }
        revealed := p.revealed ++ [i]
        localStorage := p.localStorage.setItem StorageKey.PHOTO_INDEX (numberToString (i : Int))
        photoIndex := (i : Int) + 1
        timers := p.timers ++
          [{ id := p.nextTimerId, due := p.now + 1500, period := none,
             callback := Callback.showNextPhoto }]
        nextTimerId := p.nextTimerId + 1 } := by
  have h1 : (i : Int) < (p.photos.length : Int) := by exact_mod_cast hlt
  have h2 : ¬ ((i : Int) < 0) := by omega
  simp [showNextPhoto, hi, h1, h2, setTimeout]

theorem showNextPhoto_done (p : Page) (hi : p.photoIndex = (p.photos.length : Int)) :
    showNextPhoto p =
      { p with
        timers := p.timers ++
          [{ id := p.nextTimerId, due := p.now + 2000, period := none,
             callback := Callback.finishPhotos }]
        nextTimerId := p.nextTimerId + 1 } := by
  simp [showNextPhoto, hi, setTimeout]

theorem stepLoop_single (env : Env) (p : Page) (t : Timer) (ht : p.timers = [t])
    (hp : t.period = none) :
    stepLoop env p =
      some (runCallback env t.callback { p with now := max p.now t.due, timers := [] }) := by
  simp [stepLoop, ht, earliest, afterFiring, hp]

theorem runLoop_idle (env : Env) (fuel : Nat) (p : Page) (ht : p.timers = []) :
    runLoop env fuel p = p := by
  cases fuel with
  | zero => rfl
  | succ n => simp [runLoop, stepLoop, ht, earliest]

theorem reveal_chain (env : Env) (d : Nat) :
    ∀ (p : Page) (i fuel : Nat), p.photos.length - i = d → i ≤ p.photos.length →
      p.photoIndex = (i : Int) → p.timers = [] → d + 1 ≤ fuel →
      (runLoop env fuel (showNextPhoto p)).revealed = p.revealed ++ List.range' i d ∧
      (runLoop env fuel (showNextPhoto p)).localStorage.stage = some STAGES.FINAL ∧
      (runLoop env fuel (showNextPhoto p)).timers = [] ∧
      (runLoop env fuel (showNextPhoto p)).photoIndex = (p.photos.length : Int) ∧
      (runLoop env fuel (showNextPhoto p)).finalMessage = Display.block ∧
      (runLoop env fuel (showNextPhoto p)).photos.length = p.photos.length ∧
      (∀ j, j < i → (runLoop env fuel (showNextPhoto p)).photos[j]? = p.photos[j]?) ∧
      (runLoop env fuel (showNextPhoto p)).localStorage.photoIndex =
        (if d = 0 then p.localStorage.photoIndex
          else some (numberToString ((p.photos.length - 1 : Nat) : Int))) ∧
      (runLoop env fuel (showNextPhoto p)).localStorage.date = p.localStorage.date ∧
      (runLoop env fuel (showNextPhoto p)).localStorage.active = p.localStorage.active := by
  induction d with
  | zero =>
    intro p i fuel hd hle hi ht hfuel
    have hiN : i = p.photos.length := by omega
    subst hiN
    obtain ⟨f, rfl⟩ : ∃ f, fuel = f + 1 := ⟨fuel - 1, by omega⟩
    rw [showNextPhoto_done p hi]
    simp only [runLoop]
    rw [stepLoop_single env _ _ (by simp [ht]; rfl) rfl]
    simp only [runCallback]
    rw [runLoop_idle env f _ (by simp [finishPhotos])]
    simp [finishPhotos, LocalStorage.setItem, hi]
  | succ d ih =>
    intro p i fuel hd hle hi ht hfuel
    have hlt : i < p.photos.length := by omega
    obtain ⟨f, rfl⟩ : ∃ f, fuel = f + 1 := ⟨fuel - 1, by omega⟩
    rw [showNextPhoto_reveal p i hi hlt]
    simp only [runLoop]
    rw [stepLoop_single env _ _ (by simp [ht]; rfl) rfl]
    simp only [runCallback]
    have h := ih
      { p with
        photos := p.photos.set i
          { display := Display.block, animation := "fadeInUp 0.8s ease-out" }
        revealed := p.revealed ++ [i]
        localStorage := p.localStorage.setItem StorageKey.PHOTO_INDEX (numberToString (i : Int))
        photoIndex := (i : Int) + 1
        timers := []
        nextTimerId := p.nextTimerId + 1
        now := max p.now (p.now + 1500) }
      (i + 1) f (by simp; omega) (by simp; omega) (by simp) rfl (by omega)
    simp only [List.length_set] at h
    obtain ⟨h1, h2, h3, h4, h5, h6, h7, h8, h9, h10⟩ := h
    refine ⟨?_, h2, h3, h4, h5, h6, ?_, ?_, ?_, ?_⟩
    · rw [h1, List.append_assoc]; rfl
    · intro j hj
      rw [h7 j (by omega)]
      exact List.getElem?_set_ne (by omega)
    · rw [h8]
      by_cases hd0 : d = 0
      · have hN : ((p.photos.length - 1 : Nat) : Int) = (i : Int) := by
          congr 1; omega
        simp [hd0, LocalStorage.setItem, hN]
      · simp [hd0]
    · rw [h9]; rfl
    · rw [h10]; rfl

/-! ## Starting a countdown and the countdown tick -/

/-- C2, evaluated on the code. At a tick with `targetDate - now` equal to exactly 0,
`updateCountdown` does not treat the date as arrived: it shows 00 in the four fields and
leaves the store, the timers and the birthday view as they were, whereas the test of
`startCountdown` and `restoreCountdownState` (`birthdayDate <= now`) holds at that
instant. -/
theorem updateCountdown_at_zero_shows_zeros (p : Page) :
    hasArrived (some p.now) p.now = true ∧
    (updateCountdown (some p.now) p).daysText = "00" ∧
    (updateCountdown (some p.now) p).hoursText = "00" ∧
    (updateCountdown (some p.now) p).minutesText = "00" ∧
    (updateCountdown (some p.now) p).secondsText = "00" ∧
    (updateCountdown (some p.now) p).localStorage = p.localStorage ∧
    (updateCountdown (some p.now) p).timers = p.timers ∧
    (updateCountdown (some p.now) p).birthdayMessage = p.birthdayMessage := by
  have h0 : countdownParts 0 = { days := 0, hours := 0, minutes := 0, seconds := 0 } := by
    decide
  have hpad : padStart2 (numberToString 0) = "00" := by decide
  simp [updateCountdown, hasArrived, h0, numberOrNaNToString, hpad]

/-- C7. For every selected (non-empty) date that is not in the future at the moment of the
call (`birthdayDate <= now`, which covers every date already in the past), `startCountdown`
leaves the store with the selected date, the active flag 'true' and the stage BIRTHDAY, not
COUNTDOWN, and adds no timer and no countdown interval handle. -/
theorem startCountdown_past_date (env : Env) (p : Page) (target : Int)
    (hsel : p.birthdayDateValue ≠ "")
    (hdate : env.parseDate p.birthdayDateValue = some target) (hpast : target ≤ p.now) :
    (startCountdown env p).localStorage.getItem StorageKey.BIRTHDAY_DATE
      = some p.birthdayDateValue ∧
    (startCountdown env p).localStorage.getItem StorageKey.COUNTDOWN_ACTIVE = some "true" ∧
    (startCountdown env p).localStorage.getItem StorageKey.CURRENT_STAGE
      = some STAGES.BIRTHDAY ∧
    (startCountdown env p).localStorage.getItem StorageKey.CURRENT_STAGE
      ≠ some STAGES.COUNTDOWN ∧
    (startCountdown env p).timers = p.timers ∧
    (startCountdown env p).countdownInterval = p.countdownInterval ∧
    (startCountdown env p).birthdayMessage = Display.block := by
  have hne : STAGES.BIRTHDAY ≠ STAGES.COUNTDOWN := by decide
  simp [startCountdown, hsel, hdate, hasArrived, hpast, showBirthdayMessage, createHearts,
    LocalStorage.setItem, LocalStorage.getItem, hne]

theorem startCountdown_past_date_witness :
    (startCountdown exampleEnv pastDatePage).localStorage.getItem StorageKey.BIRTHDAY_DATE
      = some pastDatePage.birthdayDateValue ∧
    (startCountdown exampleEnv pastDatePage).localStorage.getItem StorageKey.COUNTDOWN_ACTIVE
      = some "true" ∧
    (startCountdown exampleEnv pastDatePage).localStorage.getItem StorageKey.CURRENT_STAGE
      = some STAGES.BIRTHDAY ∧
    (startCountdown exampleEnv pastDatePage).localStorage.getItem StorageKey.CURRENT_STAGE
      ≠ some STAGES.COUNTDOWN ∧
    (startCountdown exampleEnv pastDatePage).timers = pastDatePage.timers ∧
    (startCountdown exampleEnv pastDatePage).countdownInterval
      = pastDatePage.countdownInterval ∧
    (startCountdown exampleEnv pastDatePage).birthdayMessage = Display.block :=
  startCountdown_past_date exampleEnv pastDatePage 1748736000000 (by decide) (by decide)
    (by decide)

/-! ## The reset control -/

theorem clearInterval_localStorage (h : Option Nat) (p : Page) :
    (clearInterval h p).localStorage = p.localStorage := by
  cases h <;> rfl

theorem clearInterval_photoIndex (h : Option Nat) (p : Page) :
    (clearInterval h p).photoIndex = p.photoIndex := by
  cases h <;> rfl

theorem removeAll_eq_empty (s : LocalStorage) :
    StorageKey.all.foldl (fun s k => s.removeItem k) s = LocalStorage.empty := rfl

theorem resetCountdown_localStorage (p : Page) :
    (resetCountdown true p).localStorage = LocalStorage.empty := by
  simp only [resetCountdown, setTimeout, removeAll_eq_empty, Bool.not_true, Bool.false_eq_true,
    if_false]

theorem initializeApp_empty (env : Env) (photoCount : Nat) (now : Int) :
    initializeApp env (pageLoad LocalStorage.empty photoCount now) =
      { pageLoad LocalStorage.empty photoCount now with
        birthdayDateValue := env.defaultDate now } := by
  simp [initializeApp, pageLoad, LocalStorage.empty, LocalStorage.getItem, strOr, strTruthy]

/-- C9. For every page state, `resetCountdown` with the confirmation accepted leaves the
four persisted keys absent and the in-memory `photoIndex` equal to 0, so that
`initializeApp` on a page loaded over the store it leaves behaves as on a first-ever visit:
the store stays empty, nothing is shown or hidden, no timer is pending and only the date
input receives the default date.  With the confirmation declined the page is unchanged. -/
theorem resetCountdown_spec (env : Env) (p : Page) (photoCount : Nat) (now : Int) :
    (∀ k, (resetCountdown true p).localStorage.getItem k = none) ∧
    (resetCountdown true p).photoIndex = 0 ∧
    initializeApp env (pageLoad (resetCountdown true p).localStorage photoCount now)
      = initializeApp env (pageLoad LocalStorage.empty photoCount now) ∧
    initializeApp env (pageLoad (resetCountdown true p).localStorage photoCount now)
      = { pageLoad LocalStorage.empty photoCount now with
          birthdayDateValue := env.defaultDate now } ∧
    (initializeApp env
      (pageLoad (resetCountdown true p).localStorage photoCount now)).timers = [] ∧
    (initializeApp env
      (pageLoad (resetCountdown true p).localStorage photoCount now)).countdownInterval
        = none ∧
    resetCountdown false p = p := by
  rw [resetCountdown_localStorage, initializeApp_empty]
  refine ⟨?_, ?_, rfl, rfl, rfl, rfl, rfl⟩
  · intro k; cases k <;> rfl
  · simp [resetCountdown, setTimeout]

theorem afterAll_append_singleton (timerFirst : Bool) (pre : List Int) (b : ResetButton)
    (t : Int) :
    ResetButton.afterAll timerFirst b (pre ++ [t]) =
      ((ResetButton.afterAll timerFirst b pre).activate timerFirst t).after := by
  induction pre generalizing b with
  | nil => rfl
  | cons x xs ih => simpa [ResetButton.afterAll] using ih _

theorem activate_after_shape (timerFirst : Bool) (b : ResetButton) (t : Int) :
    (b.activate timerFirst t).after.clickCount = 0 ∨
      (b.activate timerFirst t).after.clickTimer = some (t + 1000) := by
  simp only [ResetButton.activate, ResetButton.click]
  split_ifs
  · exact Or.inl rfl
  · exact Or.inr rfl

theorem elapse_after_silence (timerFirst : Bool) (b : ResetButton) (p t : Int)
    (hb : b.clickCount = 0 ∨ b.clickTimer = some (p + 1000)) (hsilence : p + 1000 < t) :
    (b.elapse timerFirst t).clickCount = 0 := by
  unfold ResetButton.elapse
  rcases hb with h0 | h1
  · cases hc : b.clickTimer with
    | none => simpa using h0
    | some due =>
      simp only
      split_ifs
      · rfl
      · exact h0
  · simp [h1, hsilence]

theorem activate_prompted_iff (timerFirst : Bool) (b : ResetButton) (t : Int) :
    (b.activate timerFirst t).prompted = true ↔ (b.activate timerFirst t).reached = 3 := by
  simp only [ResetButton.activate, ResetButton.click]
  split_ifs with h
  · simp [h]
  · simp [h]

theorem activate_timer_shape (timerFirst : Bool) (b : ResetButton) (t : Int) :
    (b.activate timerFirst t).after.clickTimer = none ∨
      (b.activate timerFirst t).after.clickTimer = some (t + 1000) := by
  simp only [ResetButton.activate, ResetButton.click]
  split_ifs
  · exact Or.inl rfl
  · exact Or.inr rfl

theorem elapse_within_window (timerFirst : Bool) (b : ResetButton) (p t : Int)
    (hb : b.clickTimer = none ∨ b.clickTimer = some (p + 1000)) (hquick : t < p + 1000) :
    b.elapse timerFirst t = b := by
  unfold ResetButton.elapse
  rcases hb with h | h
  · simp [h]
  · have h1 : ¬ (p + 1000 < t) := by omega
    have h2 : ¬ (p + 1000 = t) := by omega
    simp [h, h1, h2]

theorem activations_quick_pair (timerFirst : Bool) (t0 t1 : Int) (hquick : t1 < t0 + 1000) :
    ResetButton.init.activate timerFirst t0 =
        { reached := 1, prompted := false,
          after := { clickCount := 1, clickTimer := some (t0 + 1000) } } ∧
    (ResetButton.init.activate timerFirst t0).after.activate timerFirst t1 =
        { reached := 2, prompted := false,
          after := { clickCount := 2, clickTimer := some (t1 + 1000) } } := by
  have h0 : ResetButton.init.activate timerFirst t0 =
      { reached := 1, prompted := false,
        after := { clickCount := 1, clickTimer := some (t0 + 1000) } } := by
    simp [ResetButton.activate, ResetButton.elapse, ResetButton.click, ResetButton.init]
  refine ⟨h0, ?_⟩
  rw [h0]
  have he := elapse_within_window timerFirst
    { clickCount := 1, clickTimer := some (t0 + 1000) } t0 t1 (Or.inr rfl) hquick
  simp only [ResetButton.activate, he]
  simp [ResetButton.click]

/-- C8. For every sequence of timestamped activations of the reset control: the first
activation, and every activation that follows more than 1 second (1000 ms) of silence,
brings the click counter to 1 and leaves it at 1 without calling `resetCountdown`;
`resetCountdown` is called exactly by an activation that brings the counter to 3; and two
activations within 1 second, a pause of 2 seconds or more, then one more activation call
`resetCountdown` at none of the three.  The counter does advance: an activation less than
1 second after the previous one brings the counter to one more than the previous
activation left, and leaves 0 behind when that is 3; three activations each less than 1
second after the one before bring it to 1, 2, 3 and call `resetCountdown` at the third
only, leaving the counter at 0 with no timeout pending; two quick activations and a third
after more than 1 second bring it to 1, 2, 1. -/
theorem resetButton_spec (timerFirst : Bool) :
    (∀ t : Int,
      (ResetButton.init.activate timerFirst t).reached = 1 ∧
      (ResetButton.init.activate timerFirst t).after.clickCount = 1 ∧
      (ResetButton.init.activate timerFirst t).prompted = false) ∧
    (∀ (pre : List Int) (p t : Int), p + 1000 < t →
      ((ResetButton.afterAll timerFirst ResetButton.init (pre ++ [p])).activate
          timerFirst t).reached = 1 ∧
      ((ResetButton.afterAll timerFirst ResetButton.init (pre ++ [p])).activate
          timerFirst t).after.clickCount = 1 ∧
      ((ResetButton.afterAll timerFirst ResetButton.init (pre ++ [p])).activate
          timerFirst t).prompted = false) ∧
    (∀ (ts : List Int) (t : Int),
      ((ResetButton.afterAll timerFirst ResetButton.init ts).activate timerFirst t).prompted
          = true ↔
        ((ResetButton.afterAll timerFirst ResetButton.init ts).activate timerFirst t).reached
          = 3) ∧
    (∀ t0 t1 t2 : Int, t0 ≤ t1 → t1 ≤ t0 + 1000 → t1 + 2000 ≤ t2 →
      (ResetButton.activations timerFirst ResetButton.init [t0, t1, t2]).map
        Activation.prompted = [false, false, false]) ∧
    (∀ (pre : List Int) (p t : Int), t < p + 1000 →
      ((ResetButton.afterAll timerFirst ResetButton.init (pre ++ [p])).activate
          timerFirst t).reached
        = (ResetButton.afterAll timerFirst ResetButton.init (pre ++ [p])).clickCount + 1 ∧
      ((ResetButton.afterAll timerFirst ResetButton.init (pre ++ [p])).activate
          timerFirst t).after.clickCount
        = (if (ResetButton.afterAll timerFirst ResetButton.init (pre ++ [p])).clickCount + 1
              = 3 then 0
            else (ResetButton.afterAll timerFirst ResetButton.init (pre ++ [p])).clickCount
              + 1)) ∧
    (∀ t0 t1 t2 : Int, t1 < t0 + 1000 → t2 < t1 + 1000 →
      (ResetButton.activations timerFirst ResetButton.init [t0, t1, t2]).map
        Activation.reached = [1, 2, 3] ∧
      (ResetButton.activations timerFirst ResetButton.init [t0, t1, t2]).map
        Activation.prompted = [false, false, true] ∧
      ResetButton.afterAll timerFirst ResetButton.init [t0, t1, t2]
        = { clickCount := 0, clickTimer := none }) ∧
    (∀ t0 t1 t2 : Int, t1 < t0 + 1000 → t1 + 1000 < t2 →
      (ResetButton.activations timerFirst ResetButton.init [t0, t1, t2]).map
        Activation.reached = [1, 2, 1] ∧
      ResetButton.afterAll timerFirst ResetButton.init [t0, t1, t2]
        = { clickCount := 1, clickTimer := some (t2 + 1000) }) := by
  have hsil : ∀ (b : ResetButton) (t : Int), (b.elapse timerFirst t).clickCount = 0 →
      (b.activate timerFirst t).reached = 1 ∧ (b.activate timerFirst t).after.clickCount = 1 ∧
        (b.activate timerFirst t).prompted = false := by
    intro b t h0
    simp [ResetButton.activate, ResetButton.click, h0]
  refine ⟨?_, ?_, ?_, ?_, ?_, ?_, ?_⟩
  · intro t
    exact hsil _ t rfl
  · intro pre p t hsilence
    apply hsil
    apply elapse_after_silence timerFirst _ p t _ hsilence
    rw [afterAll_append_singleton]
    exact activate_after_shape timerFirst _ p
  · intro ts t
    exact activate_prompted_iff timerFirst _ t
  · intro t0 t1 t2 _ _ h12
    have a0 := hsil ResetButton.init t0 rfl
    have hlt : ∀ b : ResetButton, b.clickCount < 2 →
        (b.activate timerFirst t1).prompted = false ∧
        ((b.activate timerFirst t1).after.clickCount = 0 ∨
          (b.activate timerFirst t1).after.clickTimer = some (t1 + 1000)) := by
      intro b hb
      refine ⟨?_, activate_after_shape timerFirst b t1⟩
      have he : (b.elapse timerFirst t1).clickCount < 2 := by
        unfold ResetButton.elapse
        cases hc : b.clickTimer with
        | none => simpa using hb
        | some due =>
          simp only
          split_ifs
          · simp
          · exact hb
      have hne : ¬ ((b.elapse timerFirst t1).clickCount + 1 = 3) := by omega
      simp [ResetButton.activate, ResetButton.click, hne]
    have a1 := hlt (ResetButton.init.activate timerFirst t0).after (by rw [a0.2.1]; decide)
    have a2 := hsil _ t2
      (elapse_after_silence timerFirst _ t1 t2 a1.2 (by omega))
    simp only [ResetButton.activations, List.map_cons, List.map_nil]
    rw [a0.2.2, a1.1, a2.2.2]
  · intro pre p t hquick
    have hshape : (ResetButton.afterAll timerFirst ResetButton.init (pre ++ [p])).clickTimer
          = none ∨
        (ResetButton.afterAll timerFirst ResetButton.init (pre ++ [p])).clickTimer
          = some (p + 1000) := by
      rw [afterAll_append_singleton]
      exact activate_timer_shape timerFirst _ p
    have he := elapse_within_window timerFirst _ p t hshape hquick
    simp only [ResetButton.activate, he, ResetButton.click]
    split_ifs with h3
    · exact ⟨rfl, rfl⟩
    · exact ⟨rfl, rfl⟩
  · intro t0 t1 t2 h01 h12
    obtain ⟨a0, a1⟩ := activations_quick_pair timerFirst t0 t1 h01
    have he := elapse_within_window timerFirst
      { clickCount := 2, clickTimer := some (t1 + 1000) } t1 t2 (Or.inr rfl) h12
    have a2 : ((ResetButton.init.activate timerFirst t0).after.activate timerFirst t1).after.activate
        timerFirst t2 =
        { reached := 3, prompted := true, after := { clickCount := 0, clickTimer := none } } := by
      rw [a1]
      simp only [ResetButton.activate, he]
      simp [ResetButton.click]
    simp only [ResetButton.activations, ResetButton.afterAll, List.map_cons, List.map_nil]
    rw [a2, a1, a0]
    exact ⟨rfl, rfl, rfl⟩
  · intro t0 t1 t2 h01 h12
    obtain ⟨a0, a1⟩ := activations_quick_pair timerFirst t0 t1 h01
    have a2 : ((ResetButton.init.activate timerFirst t0).after.activate timerFirst t1).after.activate
        timerFirst t2 =
        { reached := 1, prompted := false,
          after := { clickCount := 1, clickTimer := some (t2 + 1000) } } := by
      rw [a1]
      simp [ResetButton.activate, ResetButton.elapse, ResetButton.click, h12]
    simp only [ResetButton.activations, ResetButton.afterAll, List.map_cons, List.map_nil]
    rw [a2, a1, a0]
    exact ⟨rfl, rfl⟩

theorem resetButton_spec_witness :
    (0 : Int) ≤ 500 ∧ (500 : Int) ≤ 0 + 1000 ∧ (500 : Int) + 2000 ≤ 2500 ∧
    (ResetButton.activations true ResetButton.init [0, 500, 2500]).map
      Activation.prompted = [false, false, false] ∧
    (500 : Int) < 0 + 1000 ∧ (900 : Int) < 500 + 1000 ∧
    (ResetButton.activations true ResetButton.init [0, 500, 900]).map
      Activation.reached = [1, 2, 3] ∧
    (ResetButton.activations true ResetButton.init [0, 500, 900]).map
      Activation.prompted = [false, false, true] :=
  ⟨by decide, by decide, by decide,
    (resetButton_spec true).2.2.2.1 0 500 2500 (by decide) (by decide) (by decide),
    by decide, by decide,
    ((resetButton_spec true).2.2.2.2.2.1 0 500 900 (by decide) (by decide)).1,
    ((resetButton_spec true).2.2.2.2.2.1 0 500 900 (by decide) (by decide)).2.1⟩

/-! ## The theme clock -/

theorem theme_names_ne : "day-theme" ≠ "night-theme" := by decide

/-- C10. For every wall-clock hour, `updateTheme` leaves the day theme class on the body
exactly when `6 <= hour < 18` and the night theme class exactly otherwise, so one of the
two classes is set and never both; hours 5 and 18 give night, 6 and 17 give day. -/
theorem updateTheme_spec (hour : Nat) (body : Body) :
    ("day-theme" ∈ (updateTheme hour body).classList ↔ (6 ≤ hour ∧ hour < 18)) ∧
    ("night-theme" ∈ (updateTheme hour body).classList ↔ ¬ (6 ≤ hour ∧ hour < 18)) ∧
    ("night-theme" ∈ (updateTheme 5 body).classList ∧
      "day-theme" ∉ (updateTheme 5 body).classList) ∧
    ("day-theme" ∈ (updateTheme 6 body).classList ∧
      "night-theme" ∉ (updateTheme 6 body).classList) ∧
    ("day-theme" ∈ (updateTheme 17 body).classList ∧
      "night-theme" ∉ (updateTheme 17 body).classList) ∧
    ("night-theme" ∈ (updateTheme 18 body).classList ∧
      "day-theme" ∉ (updateTheme 18 body).classList) := by
  have hne := theme_names_ne
  have key : ∀ h : Nat,
      ("day-theme" ∈ (updateTheme h body).classList ↔ (6 ≤ h ∧ h < 18)) ∧
      ("night-theme" ∈ (updateTheme h body).classList ↔ ¬ (6 ≤ h ∧ h < 18)) := by
    intro h
    by_cases hd : 6 ≤ h ∧ h < 18
    · simp only [updateTheme, hd, and_self, if_true, classAdd, classRemove]
      split_ifs with hm
      · simp [List.mem_filter, hne]
        exact (List.mem_filter.mp hm).1
      · simp [List.mem_filter, hne]
    · simp only [updateTheme, hd, if_false, classAdd, classRemove]
      split_ifs with hm
      · simp [List.mem_filter, hne, hne.symm]
        exact (List.mem_filter.mp hm).1
      · simp [List.mem_filter, hne, hne.symm]
  refine ⟨(key hour).1, (key hour).2, ?_, ?_, ?_, ?_⟩
  · exact ⟨(key 5).2.mpr (by omega), fun h => absurd ((key 5).1.mp h) (by omega)⟩
  · exact ⟨(key 6).1.mpr (by omega), fun h => ((key 6).2.mp h) (by omega)⟩
  · exact ⟨(key 17).1.mpr (by omega), fun h => ((key 17).2.mp h) (by omega)⟩
  · exact ⟨(key 18).2.mpr (by omega), fun h => absurd ((key 18).1.mp h) (by omega)⟩

/-! ## Resuming the photo reveal -/

theorem showPhotos_cursor (p : Page) (k : Nat)
    (hstored : p.localStorage.getItem StorageKey.PHOTO_INDEX = some (numberToString (k : Int))) :
    orZero (parseInt (nullToString (p.localStorage.getItem StorageKey.PHOTO_INDEX)))
      = (k : Int) := by
  rw [hstored]
  simp [nullToString, parseInt_numberToString, orZero]

/-- C4. For every stored photo index `k` with `0 <= k <= N`, where `N` is the number of
photo slots, `showPhotos` followed by the timer chain of `showNextPhoto` run to completion
(any fuel of at least `N - k + 1` turns, no other timer pending) reveals exactly the slots
`k, k+1, ..., N-1`, each once and in that order, reveals no slot below `k` and leaves those
slots as they were, and ends with the persisted stage FINAL and no timer pending. -/
theorem showPhotos_reveals_from_stored_index (env : Env) (p : Page) (k fuel : Nat)
    (hstored : p.localStorage.getItem StorageKey.PHOTO_INDEX = some (numberToString (k : Int)))
    (hk : k ≤ p.photos.length) (hidle : p.timers = [])
    (hfuel : p.photos.length - k + 1 ≤ fuel) :
    (runLoop env fuel (showPhotos p)).revealed
      = p.revealed ++ List.range' k (p.photos.length - k) ∧
    (∀ j, j < k → j ∉ List.range' k (p.photos.length - k)) ∧
    (∀ j, j < k → (runLoop env fuel (showPhotos p)).photos[j]? = p.photos[j]?) ∧
    (runLoop env fuel (showPhotos p)).localStorage.getItem StorageKey.CURRENT_STAGE
      = some STAGES.FINAL ∧
    (runLoop env fuel (showPhotos p)).timers = [] := by
  have hc := showPhotos_cursor p k hstored
  have h := reveal_chain env (p.photos.length - k)
    { p with
      localStorage := p.localStorage.setItem StorageKey.CURRENT_STAGE STAGES.PHOTOS
      birthdayMessage := Display.none
      photoGallery := Display.block
      photoIndex :=
        orZero (parseInt (nullToString (p.localStorage.getItem StorageKey.PHOTO_INDEX))) }
    k fuel rfl hk hc hidle hfuel
  obtain ⟨h1, h2, h3, _, _, _, h7, _⟩ := h
  refine ⟨h1, ?_, h7, h2, h3⟩
  intro j hj hmem
  have := (List.mem_range'_1.mp hmem).1
  omega

theorem showPhotos_reveals_from_stored_index_witness :
    photosPage.localStorage.getItem StorageKey.PHOTO_INDEX
      = some (numberToString ((2 : Nat) : Int)) ∧
    2 ≤ photosPage.photos.length ∧ photosPage.timers = [] ∧
    (runLoop exampleEnv 2 (showPhotos photosPage)).revealed = [2] ∧
    (runLoop exampleEnv 2 (showPhotos photosPage)).localStorage.getItem
      StorageKey.CURRENT_STAGE = some STAGES.FINAL :=
  ⟨by decide, by decide, by decide,
    (showPhotos_reveals_from_stored_index exampleEnv photosPage 2 2 (by decide) (by decide)
      (by decide) (by decide)).1,
    (showPhotos_reveals_from_stored_index exampleEnv photosPage 2 2 (by decide) (by decide)
      (by decide) (by decide)).2.2.2.1⟩

/-- C5, as stated, fails: on a first visit with three photos the first step reveals slot 0
and persists "0", not the incremented cursor "1", so the stored photo index (0) is not the
count of photos revealed (1), and a page reloaded over that store reveals slot 0 again. -/
theorem showNextPhoto_stores_index_not_count :
    (showNextPhoto freshPage).revealed = [0] ∧
    (showNextPhoto freshPage).photoIndex = 1 ∧
    (showNextPhoto freshPage).localStorage.getItem StorageKey.PHOTO_INDEX = some "0" ∧
    (showNextPhoto freshPage).localStorage.getItem StorageKey.PHOTO_INDEX
      ≠ some (numberToString (0 + 1)) ∧
    parseInt (nullToString
      ((showNextPhoto freshPage).localStorage.getItem StorageKey.PHOTO_INDEX))
      ≠ some ((showNextPhoto freshPage).revealed.length : Int) ∧
    (showPhotos (pageLoad (showNextPhoto freshPage).localStorage 3 1748822400000)).revealed
      = [0] := by
  decide

/-- C5, amended. Each step of the Photo Reveal Driver that reveals slot `i` persists `i`
itself, the index of the slot just revealed, and only then increments the in-memory cursor
to `i+1`: after the step the stored photo index reads back as `i`, and a page reloaded over
that store starts its reveal at slot `i` again. -/
theorem showNextPhoto_stores_revealed_index (p : Page) (i : Nat)
    (hi : p.photoIndex = (i : Int)) (hlt : i < p.photos.length) :
    (showNextPhoto p).revealed = p.revealed ++ [i] ∧
    (showNextPhoto p).localStorage.getItem StorageKey.PHOTO_INDEX
      = some (numberToString (i : Int)) ∧
    (showNextPhoto p).photoIndex = (i : Int) + 1 ∧
    parseInt (nullToString
      ((showNextPhoto p).localStorage.getItem StorageKey.PHOTO_INDEX)) = some (i : Int) ∧
    (∀ now : Int,
      (showPhotos (pageLoad (showNextPhoto p).localStorage p.photos.length now)).revealed
        = [i]) := by
  have hs : (showNextPhoto p).localStorage.getItem StorageKey.PHOTO_INDEX
      = some (numberToString (i : Int)) := by
    rw [showNextPhoto_reveal p i hi hlt]; rfl
  refine ⟨?_, hs, ?_, ?_, ?_⟩
  · rw [showNextPhoto_reveal p i hi hlt]
  · rw [showNextPhoto_reveal p i hi hlt]
  · rw [hs]; exact parseInt_numberToString i
  · intro now
    have hc := showPhotos_cursor
      (pageLoad (showNextPhoto p).localStorage p.photos.length now) i hs
    have hlen : (pageLoad (showNextPhoto p).localStorage p.photos.length now).photos.length
        = p.photos.length := by simp [pageLoad]
    unfold showPhotos
    rw [showNextPhoto_reveal _ i hc (by simpa [hlen] using hlt)]
    rfl

theorem showNextPhoto_stores_revealed_index_witness :
    freshPage.photoIndex = ((0 : Nat) : Int) ∧ 0 < freshPage.photos.length ∧
    (showNextPhoto freshPage).localStorage.getItem StorageKey.PHOTO_INDEX = some "0" ∧
    (showNextPhoto freshPage).photoIndex = 1 :=
  ⟨by decide, by decide,
    (showNextPhoto_stores_revealed_index freshPage 0 (by decide) (by decide)).2.1,
    (showNextPhoto_stores_revealed_index freshPage 0 (by decide) (by decide)).2.2.1⟩

/-! ## Resuming into the final stage -/

theorem restore_final (env : Env) (ds : String) (p : Page) :
    restoreCountdownState env ds STAGES.FINAL p =
      if hasArrived (env.parseDate ds) p.now then showBirthdayMessage p
      else setTimeout Callback.restoreFinal 1000 (showBirthdayMessage p) := by
  have h1 : STAGES.FINAL ≠ STAGES.COUNTDOWN := by decide
  have h2 : STAGES.FINAL ≠ STAGES.BIRTHDAY := by decide
  have h3 : STAGES.FINAL ≠ STAGES.PHOTOS := by decide
  simp [restoreCountdownState, h1, h2, h3]

theorem initializeApp_final_eq (env : Env) (st : LocalStorage) (ds : String) (n : Nat)
    (now : Int) (hactive : st.getItem StorageKey.COUNTDOWN_ACTIVE = some "true")
    (hdate : st.getItem StorageKey.BIRTHDAY_DATE = some ds) (hds : ds ≠ "")
    (hstage : st.getItem StorageKey.CURRENT_STAGE = some STAGES.FINAL) :
    initializeApp env (pageLoad st n now) =
      if hasArrived (env.parseDate ds) now then
        showBirthdayMessage { pageLoad st n now with birthdayDateValue := ds }
      else
        setTimeout Callback.restoreFinal 1000
          (showBirthdayMessage { pageLoad st n now with birthdayDateValue := ds }) := by
  have hl : (pageLoad st n now).localStorage = st := rfl
  have hf : STAGES.FINAL ≠ "" := by decide
  have hnow : (pageLoad st n now).now = now := rfl
  simp only [initializeApp, hl, hactive, hdate, hstage, strOr, strTruthy, hds, hf, if_false,
    nullToString, decide_True, decide_not, Bool.not_false, Bool.and_self, if_true, ne_eq,
    not_false_eq_true]
  rw [restore_final]
  rfl

/-- C6, as stated, fails.  With an active store in stage FINAL (three photos, stored index
2): when the target date has passed, `initializeApp` moves the persisted stage back to
BIRTHDAY; when the target date is still in the future it does so too, and the next timer
turn runs `showPhotos`, which persists PHOTOS and lets `showNextPhoto` reveal slot 2. -/
theorem initializeApp_final_moves_stage_back :
    finalPagePast.localStorage.getItem StorageKey.COUNTDOWN_ACTIVE = some "true" ∧
    finalPagePast.localStorage.getItem StorageKey.CURRENT_STAGE = some STAGES.FINAL ∧
    (initializeApp exampleEnv finalPagePast).localStorage.getItem StorageKey.CURRENT_STAGE
      = some STAGES.BIRTHDAY ∧
    (initializeApp exampleEnv finalPageFuture).localStorage.getItem StorageKey.CURRENT_STAGE
      = some STAGES.BIRTHDAY ∧
    (runLoop exampleEnv 1 (initializeApp exampleEnv finalPageFuture)).localStorage.getItem
      StorageKey.CURRENT_STAGE = some STAGES.PHOTOS ∧
    (runLoop exampleEnv 1 (initializeApp exampleEnv finalPageFuture)).revealed = [2] ∧
    (runLoop exampleEnv 5 (initializeApp exampleEnv finalPageFuture)).localStorage.getItem
      StorageKey.CURRENT_STAGE = some STAGES.FINAL ∧
    (runLoop exampleEnv 5 (initializeApp exampleEnv finalPageFuture)).timers = [] := by
  decide

/-- C6, amended. For every active persisted state whose stored stage is FINAL,
`initializeApp` on the loaded page itself reveals no photo slot and does not rewrite the
stored photo index, but it shows the birthday view, not the final message, and rewrites the
persisted stage to BIRTHDAY.  When the target date has passed (`birthdayDate <= now`) no
timer is left pending.  Otherwise one timeout is pending, due 1000 ms later, and running
it calls `showPhotos`: the persisted stage becomes PHOTOS and, for a stored photo index
`k < N`, `showNextPhoto` reveals slot `k` and persists `k` again. -/
theorem initializeApp_final_restarts_at_birthday (env : Env) (st : LocalStorage)
    (ds : String) (n : Nat) (now : Int)
    (hactive : st.getItem StorageKey.COUNTDOWN_ACTIVE = some "true")
    (hdate : st.getItem StorageKey.BIRTHDAY_DATE = some ds) (hds : ds ≠ "")
    (hstage : st.getItem StorageKey.CURRENT_STAGE = some STAGES.FINAL) :
    (initializeApp env (pageLoad st n now)).revealed = [] ∧
    (initializeApp env (pageLoad st n now)).localStorage.getItem StorageKey.PHOTO_INDEX
      = st.getItem StorageKey.PHOTO_INDEX ∧
    (initializeApp env (pageLoad st n now)).localStorage.getItem StorageKey.CURRENT_STAGE
      = some STAGES.BIRTHDAY ∧
    (initializeApp env (pageLoad st n now)).birthdayMessage = Display.block ∧
    (initializeApp env (pageLoad st n now)).finalMessage = Display.unset ∧
    (hasArrived (env.parseDate ds) now = true →
      (initializeApp env (pageLoad st n now)).timers = []) ∧
    (hasArrived (env.parseDate ds) now = false →
      (initializeApp env (pageLoad st n now)).timers =
        [{ id := 2, due := now + 1000, period := none, callback := Callback.restoreFinal }] ∧
      ∀ k : Nat, k < n →
        st.getItem StorageKey.PHOTO_INDEX = some (numberToString (k : Int)) →
        ∃ q, stepLoop env (initializeApp env (pageLoad st n now)) = some q ∧
          q.localStorage.getItem StorageKey.CURRENT_STAGE = some STAGES.PHOTOS ∧
          q.revealed = [k] ∧
          q.localStorage.getItem StorageKey.PHOTO_INDEX = some (numberToString (k : Int)) ∧
          q.photoGallery = Display.block) := by
  rw [initializeApp_final_eq env st ds n now hactive hdate hds hstage]
  cases harr : hasArrived (env.parseDate ds) now
  · simp only [Bool.false_eq_true, if_false]
    refine ⟨rfl, ?_, rfl, rfl, rfl, ?_, ?_⟩
    · simp [setTimeout, showBirthdayMessage, createHearts, LocalStorage.setItem,
        LocalStorage.getItem, pageLoad]
    · intro h; cases h
    · intro _
      refine ⟨rfl, ?_⟩
      intro k hk hstored
      rw [stepLoop_single env _
        { id := 2, due := now + 1000, period := none, callback := Callback.restoreFinal }
        rfl rfl]
      refine ⟨_, rfl, ?_⟩
      have hstored2 : st.photoIndex = some (numberToString (k : Int)) := hstored
      have hc : orZero (parseInt (nullToString st.photoIndex)) = (k : Int) := by
        rw [hstored2]; simp [nullToString, parseInt_numberToString, orZero]
      simp only [runCallback, showPhotos]
      rw [showNextPhoto_reveal _ k (by simpa [showBirthdayMessage, createHearts, pageLoad,
        LocalStorage.setItem, LocalStorage.getItem, setTimeout] using hc)
        (by simpa [showBirthdayMessage, createHearts, pageLoad, setTimeout] using hk)]
      simp [setTimeout, showBirthdayMessage, createHearts, LocalStorage.setItem,
        LocalStorage.getItem, pageLoad]
  · simp only [if_true]
    refine ⟨rfl, ?_, rfl, rfl, rfl, ?_, ?_⟩
    · simp [showBirthdayMessage, createHearts, LocalStorage.setItem, LocalStorage.getItem,
        pageLoad]
    · intro _; rfl
    · intro h; cases h

theorem initializeApp_final_restarts_at_birthday_witness :
    finalStore.getItem StorageKey.COUNTDOWN_ACTIVE = some "true" ∧
    finalStore.getItem StorageKey.BIRTHDAY_DATE = some "2025-06-01" ∧
    finalStore.getItem StorageKey.CURRENT_STAGE = some STAGES.FINAL ∧
    (initializeApp exampleEnv (pageLoad finalStore 3 1748822400000)).localStorage.getItem
      StorageKey.CURRENT_STAGE = some STAGES.BIRTHDAY :=
  ⟨by decide, by decide, by decide,
    (initializeApp_final_restarts_at_birthday exampleEnv finalStore "2025-06-01" 3
      1748822400000 (by decide) (by decide) (by decide) (by decide)).2.2.1⟩

end Bday
